import Mathlib

/-!
Shallow embedding of the Health Flex Timer App core (React Native), covering:

* the per-timer countdown engine (`src/TimerApp/components/Timer.js`),
* the registry / bulk-dispatch mechanism (`src/TimerApp/screens/HomeScreen.js`),
* swipe-to-delete gating (`src/TimerApp/components/SwipeableTimer.js`),
* the completion-history journal (`src/TimerApp/utils/history.js`),
* the timers persistence loader (`src/TimerApp/utils/storage.js`).

State held in React `useState` hooks is modelled as a record; each event
handler / imperative-handle method becomes a pure state-transition function.
Asynchronous storage is modelled as an explicit store value threaded through
the journal operations, with read/parse failure cases made explicit.
-/

namespace TimerApp

/-- Engine state of one `Timer` component: the `useState` hooks
`remaining_time`, `is_running`, `show_completion_modal`, together with the
fixed `duration` prop.  `completions_fired` is a ghost counter of how many
times `handle_timer_complete` has been invoked (observable through the
completion modal and the journal write it performs). -/
structure TimerState where
  duration : Nat
  remaining_time : Nat
  is_running : Bool
  show_completion_modal : Bool
  completions_fired : Nat
  deriving DecidableEq, Repr

/-- Initial component state: `useState(duration)` and `useState(false)`. -/
def initial_timer (duration : Nat) : TimerState :=
  ⟨duration, duration, false, false, 0⟩

/-- Timer.js lines 72-76: `start_timer` button handler — sets `is_running`
to true when `remaining_time > 0`. -/
def start_timer (s : TimerState) : TimerState :=
  if 0 < s.remaining_time then { s with is_running := true } else s

/-- Timer.js lines 81-83: `pause_timer` button handler — sets `is_running`
to false unconditionally. -/
def pause_timer (s : TimerState) : TimerState :=
  { s with is_running := false }

/-- Timer.js lines 88-92: `reset_timer` — stops the run, restores
`remaining_time` to `duration` and hides the completion modal. -/
def reset_timer (s : TimerState) : TimerState :=
  { s with is_running := false
           remaining_time := s.duration
           show_completion_modal := false }

/-- Timer.js lines 190-198: the imperative-handle `start_timer` exposed for
bulk actions — starts only when `remaining_time > 0 && !is_running`. -/
def ref_start_timer (s : TimerState) : TimerState :=
  if 0 < s.remaining_time ∧ s.is_running = false then
    { s with is_running := true }
  else s

/-- Timer.js lines 199-207: the imperative-handle `pause_timer` — pauses
only when `is_running`. -/
def ref_pause_timer (s : TimerState) : TimerState :=
  if s.is_running then { s with is_running := false } else s

/-- Timer.js lines 208-214: the imperative-handle `reset_timer` — same body
as the button handler `reset_timer`. -/
def ref_reset_timer (s : TimerState) : TimerState :=
  { s with is_running := false
           remaining_time := s.duration
           show_completion_modal := false }

/-- Timer.js lines 156-186 (countdown `useEffect`): one firing of the
scheduled one-second interval callback.  The interval exists only while
`is_running && remaining_time > 0`, so the function is the identity
otherwise.  When `prev_time <= 1` the callback zeroes `remaining_time`,
stops the run and schedules `handle_timer_complete` (lines 97-124), which
shows the completion modal and fires the completion hook once — recorded
here by incrementing `completions_fired`. -/
def tick (s : TimerState) : TimerState :=
  if s.is_running = true ∧ 0 < s.remaining_time then
    if s.remaining_time ≤ 1 then
      { s with remaining_time := 0
               is_running := false
               show_completion_modal := true
               completions_fired := s.completions_fired + 1 }
    else
      { s with remaining_time := s.remaining_time - 1 }
  else s

/-- Advancing the engine by `n` interval firings. -/
def ticks : Nat → TimerState → TimerState
  | 0, s => s
  | n + 1, s => ticks n (tick s)

/-- Timer.js lines 54, 64, 273: the component treats `remaining_time === 0`
as the completed state. -/
def completed (s : TimerState) : Bool :=
  s.remaining_time == 0

lemma ticks_succ (n : Nat) (s : TimerState) : ticks (n + 1) s = ticks n (tick s) := rfl

/-- A running engine with `remaining_time = r ≥ 1` reaches, after exactly
`r` interval firings, the completed state with the hook fired once more. -/
lemma ticks_run_to_zero : ∀ r : Nat, 1 ≤ r → ∀ (d c : Nat) (m : Bool),
    ticks r ⟨d, r, true, m, c⟩ = ⟨d, 0, false, true, c + 1⟩
  | 0, h, _, _, _ => by omega
  | 1, _, d, c, m => by
      simp [ticks, tick]
  | n + 2, _, d, c, m => by
      have htick : tick ⟨d, n + 2, true, m, c⟩ = ⟨d, n + 1, true, m, c⟩ := by
        simp [tick]
      rw [ticks_succ, htick]
      exact ticks_run_to_zero (n + 1) (by omega) d c m

/-- C1: for every duration `D ≥ 1`, starting an idle engine and advancing
`D` ticks yields `remaining_time = 0`, `is_running = false` (the completed
state) with the completion hook fired exactly once; after `reset_timer` and
another full countdown of `D` ticks the hook has fired exactly once again. -/
theorem countdown_fires_hook_exactly_once_per_run (D : Nat) (hD : 1 ≤ D) :
    (ticks D (ref_start_timer (initial_timer D))).remaining_time = 0 ∧
    (ticks D (ref_start_timer (initial_timer D))).is_running = false ∧
    (ticks D (ref_start_timer (initial_timer D))).completions_fired = 1 ∧
    (ticks D (ref_start_timer (ref_reset_timer
        (ticks D (ref_start_timer (initial_timer D)))))).remaining_time = 0 ∧
    (ticks D (ref_start_timer (ref_reset_timer
        (ticks D (ref_start_timer (initial_timer D)))))).is_running = false ∧
    (ticks D (ref_start_timer (ref_reset_timer
        (ticks D (ref_start_timer (initial_timer D)))))).completions_fired = 2 := by
  have hpos : 0 < D := hD
  have hstart : ref_start_timer (initial_timer D) = ⟨D, D, true, false, 0⟩ := by
    simp [ref_start_timer, initial_timer, hpos]
  have hrun1 : ticks D (ref_start_timer (initial_timer D)) = ⟨D, 0, false, true, 1⟩ := by
    rw [hstart]
    exact ticks_run_to_zero D hD D 0 false
  have hreset : ref_reset_timer (⟨D, 0, false, true, 1⟩ : TimerState) = ⟨D, D, false, false, 1⟩ := by
    simp [ref_reset_timer]
  have hstart2 : ref_start_timer (⟨D, D, false, false, 1⟩ : TimerState) = ⟨D, D, true, false, 1⟩ := by
    simp [ref_start_timer, hpos]
  have hrun2 : ticks D (ref_start_timer (ref_reset_timer
      (ticks D (ref_start_timer (initial_timer D))))) = ⟨D, 0, false, true, 2⟩ := by
    rw [hrun1, hreset, hstart2]
    exact ticks_run_to_zero D hD D 1 false
  rw [hrun2, hrun1]
  exact ⟨rfl, rfl, rfl, rfl, rfl, rfl⟩

/-- Witness for C1 at the concrete duration `D = 3`. -/
theorem countdown_fires_hook_exactly_once_per_run_witness :
    1 ≤ 3 ∧
    ((ticks 3 (ref_start_timer (initial_timer 3))).remaining_time = 0 ∧
     (ticks 3 (ref_start_timer (initial_timer 3))).is_running = false ∧
     (ticks 3 (ref_start_timer (initial_timer 3))).completions_fired = 1 ∧
     (ticks 3 (ref_start_timer (ref_reset_timer
         (ticks 3 (ref_start_timer (initial_timer 3)))))).remaining_time = 0 ∧
     (ticks 3 (ref_start_timer (ref_reset_timer
         (ticks 3 (ref_start_timer (initial_timer 3)))))).is_running = false ∧
     (ticks 3 (ref_start_timer (ref_reset_timer
         (ticks 3 (ref_start_timer (initial_timer 3)))))).completions_fired = 2) :=
  ⟨by decide, countdown_fires_hook_exactly_once_per_run 3 (by decide)⟩

/-- C3: from any engine state with a positive duration, `reset_timer`
yields `remaining_time = duration`, `is_running = false`, not completed,
and clears the pending completion signal (the completion modal). -/
theorem reset_restores_initial_state (s : TimerState) (hd : 1 ≤ s.duration) :
    (ref_reset_timer s).remaining_time = s.duration ∧
    (ref_reset_timer s).is_running = false ∧
    completed (ref_reset_timer s) = false ∧
    (ref_reset_timer s).show_completion_modal = false := by
  refine ⟨rfl, rfl, ?_, rfl⟩
  simp [completed, ref_reset_timer]
  omega

/-- Witness for C3 at a concrete completed state (duration 5, modal shown). -/
theorem reset_restores_initial_state_witness :
    1 ≤ (⟨5, 0, false, true, 1⟩ : TimerState).duration ∧
    ((ref_reset_timer ⟨5, 0, false, true, 1⟩).remaining_time = (⟨5, 0, false, true, 1⟩ : TimerState).duration ∧
     (ref_reset_timer ⟨5, 0, false, true, 1⟩).is_running = false ∧
     completed (ref_reset_timer ⟨5, 0, false, true, 1⟩) = false ∧
     (ref_reset_timer ⟨5, 0, false, true, 1⟩).show_completion_modal = false) :=
  ⟨by decide, reset_restores_initial_state ⟨5, 0, false, true, 1⟩ (by decide)⟩

/-- C7: pausing a running engine and then starting it again leaves
`remaining_time` exactly as it was at the pause; neither operation touches
`remaining_time`, and when `remaining_time > 0` (true of every reachable
running state) the pause-then-start round trip restores the state exactly. -/
theorem pause_then_start_preserves_remaining (s : TimerState) (hrun : s.is_running = true) :
    (ref_pause_timer s).remaining_time = s.remaining_time ∧
    (ref_start_timer (ref_pause_timer s)).remaining_time = s.remaining_time ∧
    (ref_pause_timer s).is_running = false ∧
    (0 < s.remaining_time → ref_start_timer (ref_pause_timer s) = s) := by
  have hp : ref_pause_timer s = { s with is_running := false } := by
    simp [ref_pause_timer, hrun]
  refine ⟨by rw [hp], ?_, by rw [hp], ?_⟩
  · rw [hp]
    by_cases h : 0 < s.remaining_time
    · simp [ref_start_timer, h]
    · simp [ref_start_timer, h]
  · intro hrem
    rw [hp]
    simp [ref_start_timer, hrem]
    cases s
    simp_all

/-- Witness for C7 at a concrete running state (remaining 41 of 60). -/
theorem pause_then_start_preserves_remaining_witness :
    (⟨60, 41, true, false, 0⟩ : TimerState).is_running = true ∧
    ((ref_pause_timer ⟨60, 41, true, false, 0⟩).remaining_time = 41 ∧
     (ref_start_timer (ref_pause_timer ⟨60, 41, true, false, 0⟩)).remaining_time = 41 ∧
     (ref_pause_timer ⟨60, 41, true, false, 0⟩).is_running = false ∧
     (0 < (⟨60, 41, true, false, 0⟩ : TimerState).remaining_time →
       ref_start_timer (ref_pause_timer ⟨60, 41, true, false, 0⟩) = ⟨60, 41, true, false, 0⟩)) :=
  ⟨by decide, pause_then_start_preserves_remaining ⟨60, 41, true, false, 0⟩ (by decide)⟩

/-- HomeScreen.js line 29: `timer_refs.current`, the registry mapping timer
identity to the live engine handle, modelled as an association list from id
to the engine state behind that handle. -/
abbrev Registry := List (String × TimerState)

/-- Resolving an identity through the registry (`timer_refs.current[timer.id]`
with a non-null `.current`). -/
def lookup_handle (reg : Registry) (id : String) : Option TimerState :=
  (reg.find? (fun p => p.1 == id)).map (fun p => p.2)

/-- Invoking a method on the engine behind the handle of `id` mutates that
engine's state in place; every other entry is untouched. -/
def update_handle (reg : Registry) (id : String) (f : TimerState → TimerState) : Registry :=
  reg.map (fun p => if p.1 == id then (p.1, f p.2) else p)

/-- The three bulk actions of HomeScreen.js `execute_bulk_action`. -/
inductive BulkAction where
  | start
  | pause
  | reset
  deriving DecidableEq, Repr

/-- Dispatch of one bulk action to one engine via its imperative handle
(Timer.js lines 189-214). -/
def apply_action : BulkAction → TimerState → TimerState
  | .start, s => ref_start_timer s
  | .pause, s => ref_pause_timer s
  | .reset, s => ref_reset_timer s

/-- HomeScreen.js lines 121-193, `execute_bulk_action`: for each timer id in
order, resolve its handle; if present, call the engine method and increment
`action_count` (the method is called and counted whether or not the engine
transition is a no-op); if absent, skip without counting.  Returns the
updated registry and the final `action_count`. -/
def execute_bulk_action : BulkAction → List String → Registry → Registry × Nat
  | _, [], reg => (reg, 0)
  | a, id :: rest, reg =>
    match lookup_handle reg id with
    | some _ =>
      let next := execute_bulk_action a rest (update_handle reg id (apply_action a))
      (next.1, next.2 + 1)
    | none => execute_bulk_action a rest reg

/-- An identity is startable when its handle resolves to an engine that is
not running and has time remaining (paused or idle). -/
def startable (reg : Registry) (id : String) : Bool :=
  match lookup_handle reg id with
  | some s => decide (0 < s.remaining_time) && !s.is_running
  | none => false

lemma lookup_update_isSome (reg : Registry) (id id2 : String) (f : TimerState → TimerState) :
    (lookup_handle (update_handle reg id f) id2).isSome = (lookup_handle reg id2).isSome := by
  unfold lookup_handle update_handle
  rw [List.find?_map]
  have hpred : ((fun p => p.1 == id2) ∘ fun p : String × TimerState =>
      if p.1 == id then (p.1, f p.2) else p) = (fun p : String × TimerState => p.1 == id2) := by
    funext p
    by_cases h : p.1 = id <;> simp [h]
  rw [hpred]
  cases reg.find? (fun p => p.1 == id2) <;> rfl

/-- C2 (amended): the bulk success count equals the number of identities in
the batch whose handle resolves in the registry, whether or not the engine
transition performed for them is a no-op; absent identities are skipped. -/
theorem bulk_success_counts_resolvable_handles (a : BulkAction) (ids : List String) (reg : Registry) :
    (execute_bulk_action a ids reg).2 =
      (ids.filter (fun id => (lookup_handle reg id).isSome)).length := by
  induction ids generalizing reg with
  | nil => rfl
  | cons id rest ih =>
    simp only [execute_bulk_action]
    cases hl : lookup_handle reg id with
    | some s =>
      have hs : (lookup_handle reg id).isSome = true := by simp [hl]
      have hfilter : (rest.filter (fun i => (lookup_handle (update_handle reg id (apply_action a)) i).isSome)) =
          (rest.filter (fun i => (lookup_handle reg i).isSome)) := by
        apply List.filter_congr
        intro x _
        rw [lookup_update_isSome]
      simp [List.filter_cons, hs, ih, hfilter]
    | none =>
      have hs : (lookup_handle reg id).isSome = false := by simp [hl]
      simp [List.filter_cons, hs, ih]

/-- Counterexample to C2 as stated: a registry holding one completed engine
(`remaining_time = 0`).  The identity is not startable (`k = 0`), yet
`execute_bulk_action` still calls `start_timer` on the resolved handle and
counts it, returning `success_count = 1 ≠ 0`: a no-op engine transition IS
counted as a success by the code. -/
theorem bulk_start_counts_noop_counterexample :
    (execute_bulk_action .start ["t1"] [("t1", ⟨60, 0, false, true, 1⟩)]).2 = 1 ∧
    ((["t1"] : List String).filter (fun id => startable [("t1", ⟨60, 0, false, true, 1⟩)] id)).length = 0 ∧
    ¬ ((execute_bulk_action .start ["t1"] [("t1", ⟨60, 0, false, true, 1⟩)]).2 =
        ((["t1"] : List String).filter (fun id => startable [("t1", ⟨60, 0, false, true, 1⟩)] id)).length) := by
  refine ⟨rfl, rfl, ?_⟩
  intro h
  rw [show (execute_bulk_action .start ["t1"] [("t1", ⟨60, 0, false, true, 1⟩)]).2 = 1 from rfl,
    show ((["t1"] : List String).filter
      (fun id => startable [("t1", ⟨60, 0, false, true, 1⟩)] id)).length = 0 from rfl] at h
  exact one_ne_zero h

/-- Timer entity as persisted and rendered (HomeScreen.js, storage.js):
`{id, name, duration, category?, is_default}`. -/
structure TimerEntity where
  id : String
  name : String
  duration : Nat
  category : Option String
  is_default : Bool
  deriving DecidableEq, Repr

/-- SwipeableTimer.js lines 113-116, `onMoveShouldSetPanResponder`: the
swipe gesture is accepted only for custom timers
(`!timer.is_default && |dx| > |dy| && |dx| > 10`). -/
def on_move_should_set_pan (is_def : Bool) (dx dy : Int) : Bool :=
  !is_def && Nat.blt dy.natAbs dx.natAbs && Nat.blt 10 dx.natAbs

/-- SwipeableTimer.js lines 131-144, `onPanResponderRelease`: the delete
button is revealed only for custom timers swiped past the threshold
(`!timer.is_default && dx < -SWIPE_THRESHOLD`). -/
def release_shows_delete (is_def : Bool) (dx swipe_threshold : Int) : Bool :=
  !is_def && decide (dx < -swipe_threshold)

/-- HomeScreen.js lines 247-252, `cleanup_timer_ref`: detaches the registry
handle of the deleted identity. -/
def cleanup_timer_ref (reg : Registry) (id : String) : Registry :=
  reg.filter (fun p => p.1 != id)

/-- HomeScreen.js lines 225-241, `handle_delete_timer`: detaches the
registry handle and removes the entity from the timers list. -/
def handle_delete_timer (id : String) (timers : List TimerEntity) (reg : Registry) :
    List TimerEntity × Registry :=
  (timers.filter (fun t => t.id != id), cleanup_timer_ref reg id)

/-- A swipe-to-delete attempt on a timer card, composed from the
SwipeableTimer gating and the HomeScreen deletion handler: the deletion
fires only if the pan responder accepted the gesture, the release revealed
the delete button, and the user confirmed the alert (SwipeableTimer.js
lines 62-83).  Returns the updated timers list and registry together with
whether the deletion was performed. -/
def swipe_delete_attempt (t : TimerEntity) (dx dy swipe_threshold : Int) (confirmed : Bool)
    (timers : List TimerEntity) (reg : Registry) : (List TimerEntity × Registry) × Bool :=
  if on_move_should_set_pan t.is_default dx dy &&
      release_shows_delete t.is_default dx swipe_threshold && confirmed then
    (handle_delete_timer t.id timers reg, true)
  else
    ((timers, reg), false)

/-- C9: a delete attempt on a default timer is rejected synchronously with
no state change — the swipe gesture is never granted, the delete affordance
never appears, the timers list and the registry are untouched, and no
deletion is performed (the rejection the spec names `ImmutableTimerError`). -/
theorem default_timer_delete_rejected (t : TimerEntity) (hdef : t.is_default = true)
    (dx dy swipe_threshold : Int) (confirmed : Bool)
    (timers : List TimerEntity) (reg : Registry) :
    on_move_should_set_pan t.is_default dx dy = false ∧
    release_shows_delete t.is_default dx swipe_threshold = false ∧
    swipe_delete_attempt t dx dy swipe_threshold confirmed timers reg = ((timers, reg), false) := by
  refine ⟨?_, ?_, ?_⟩
  · simp [on_move_should_set_pan, hdef]
  · simp [release_shows_delete, hdef]
  · simp [swipe_delete_attempt, on_move_should_set_pan, hdef]

/-- Witness for C9: a concrete default timer, a swipe well past the
threshold, and a confirmed prompt still change nothing. -/
theorem default_timer_delete_rejected_witness :
    (⟨"default-1", "1 Minute Timer", 60, some "Break", true⟩ : TimerEntity).is_default = true ∧
    (on_move_should_set_pan true (-200) 0 = false ∧
     release_shows_delete true (-200) 120 = false ∧
     swipe_delete_attempt ⟨"default-1", "1 Minute Timer", 60, some "Break", true⟩
       (-200) 0 120 true [⟨"default-1", "1 Minute Timer", 60, some "Break", true⟩]
       [("default-1", initial_timer 60)] =
       (([⟨"default-1", "1 Minute Timer", 60, some "Break", true⟩],
         [("default-1", initial_timer 60)]), false)) :=
  ⟨rfl, default_timer_delete_rejected ⟨"default-1", "1 Minute Timer", 60, some "Break", true⟩ rfl
    (-200) 0 120 true [⟨"default-1", "1 Minute Timer", 60, some "Break", true⟩]
    [("default-1", initial_timer 60)]⟩

/-- Proleptic-Gregorian civil date (year, month, day) of a day count
relative to 1970-01-01, as used by the JavaScript `Date` UTC accessors. -/
def civil_from_days (z0 : Int) : Int × Int × Int :=
  let z := z0 + 719468
  let era := Int.fdiv z 146097
  let doe := z - era * 146097
  let yoe := Int.fdiv (doe - Int.fdiv doe 1460 + Int.fdiv doe 36524 - Int.fdiv doe 146096) 365
  let y := yoe + era * 400
  let doy := doe - (365 * yoe + Int.fdiv yoe 4 - Int.fdiv yoe 100)
  let mp := Int.fdiv (5 * doy + 2) 153
  let d := doy - Int.fdiv (153 * mp + 2) 5 + 1
  let m := if mp < 10 then mp + 3 else mp - 9
  (if m ≤ 2 then y + 1 else y, m, d)

/-- Day count relative to 1970-01-01 of a proleptic-Gregorian civil date. -/
def days_from_civil (y0 m d : Int) : Int :=
  let y := if m ≤ 2 then y0 - 1 else y0
  let era := Int.fdiv y 400
  let yoe := y - era * 400
  let mp := if 2 < m then m - 3 else m + 9
  let doy := Int.fdiv (153 * mp + 2) 5 + d - 1
  let doe := yoe * 365 + Int.fdiv yoe 4 - Int.fdiv yoe 100 + doy
  era * 146097 + doe - 719468

/-- Two-decimal-digit rendering (JS `padStart(2, '0')` on values < 100). -/
def two_digits (n : Nat) : String :=
  String.mk [Nat.digitChar (n / 10 % 10), Nat.digitChar (n % 10)]

/-- Three-decimal-digit rendering of the milliseconds field. -/
def three_digits (n : Nat) : String :=
  String.mk [Nat.digitChar (n / 100 % 10), Nat.digitChar (n / 10 % 10), Nat.digitChar (n % 10)]

/-- Four-decimal-digit rendering of the year field. -/
def four_digits (n : Nat) : String :=
  String.mk [Nat.digitChar (n / 1000 % 10), Nat.digitChar (n / 100 % 10),
    Nat.digitChar (n / 10 % 10), Nat.digitChar (n % 10)]

/-- The `YYYY-MM-DD` part of `Date.prototype.toISOString` for an epoch
instant in milliseconds: the calendar date of the instant in UTC. -/
def iso_date_part (ms : Int) : String :=
  match civil_from_days (Int.fdiv ms 86400000) with
  | (y, m, d) => four_digits y.toNat ++ "-" ++ two_digits m.toNat ++ "-" ++ two_digits d.toNat

/-- The `HH:MM:SS.mmmZ` part of `Date.prototype.toISOString`. -/
def iso_time_part (ms : Int) : String :=
  let msod := (Int.emod ms 86400000).toNat
  two_digits (msod / 3600000) ++ ":" ++ two_digits (msod % 3600000 / 60000) ++ ":" ++
    two_digits (msod % 60000 / 1000) ++ "." ++ three_digits (msod % 1000) ++ "Z"

/-- JS `date.toISOString()` for a `Date` holding `ms` epoch milliseconds
(years in the four-digit range, as all app dates are). -/
def to_iso_string (ms : Int) : String :=
  iso_date_part ms ++ "T" ++ iso_time_part ms

/-- JS `s.split('T')[0]`: the characters before the first `'T'`. -/
def split_at_T_head (s : String) : String :=
  (s.data.takeWhile (fun c => c != 'T')).asString

/-- history.js lines 30-32, `format_date_for_grouping`:
`date.toISOString().split('T')[0]`. -/
def format_date_for_grouping (ms : Int) : String :=
  split_at_T_head (to_iso_string ms)

/-- The calendar date a user in a time zone `tz_offset_min` minutes behind
UTC (the JS `getTimezoneOffset` convention) sees on their local clock at
epoch instant `ms`. -/
def local_date_string (ms tz_offset_min : Int) : String :=
  iso_date_part (ms - tz_offset_min * 60000)

/-- history.js lines 67-74 `format_completion_time` and lines 52-58
fallback of `format_date_for_display` render locale strings; the display
fallback is modelled by the US-English long date of the `YYYY-MM-DD`
string. -/
def month_long_names : List String :=
  ["January", "February", "March", "April", "May", "June", "July",
   "August", "September", "October", "November", "December"]

/-- Weekday names indexed with 1970-01-01 being a Thursday. -/
def weekday_long_names : List String :=
  ["Sunday", "Monday", "Tuesday", "Wednesday", "Thursday", "Friday", "Saturday"]

/-- Decimal value of one character of a `YYYY-MM-DD` string. -/
def char_digit (c : Char) : Nat := c.toNat - 48

/-- Fields of a `YYYY-MM-DD` date string. -/
def parse_date_string (ds : String) : Int × Int × Int :=
  let l := ds.data
  let dig := fun (i : Nat) => (char_digit (l.getD i '0') : Int)
  (1000 * dig 0 + 100 * dig 1 + 10 * dig 2 + dig 3,
   10 * dig 5 + dig 6,
   10 * dig 8 + dig 9)

/-- US-English long date (`toLocaleDateString('en-US', {weekday, year,
month, day})`) of a `YYYY-MM-DD` string. -/
def locale_long_date (ds : String) : String :=
  match parse_date_string ds with
  | (y, m, d) =>
    let days := days_from_civil y m d
    let wd := (Int.emod (days + 4) 7).toNat
    (weekday_long_names.getD wd "") ++ ", " ++
      (month_long_names.getD (m.toNat - 1) "") ++ " " ++ toString d.toNat ++ ", " ++
      toString y.toNat

/-- history.js lines 39-60, `format_date_for_display`: renders a grouping
key as "Today", "Yesterday" or a long locale date, comparing against
`format_date_for_grouping` of now and of one civil day earlier (the
source's `setDate(getDate() - 1)`, modelled without DST shifts). -/
def format_date_for_display (now_ms : Int) (date_string : String) : String :=
  if date_string == format_date_for_grouping now_ms then "Today"
  else if date_string == format_date_for_grouping (now_ms - 86400000) then "Yesterday"
  else locale_long_date date_string

/-- History entry shape (history.js lines 6-15). -/
structure HistoryEntry where
  id : String
  timer_name : String
  original_duration : Nat
  category : String
  completion_time : String
  completion_date : String
  deriving DecidableEq, Repr

/-- What the persistent store holds under the history key, with the read
and parse failure modes of history.js `load_history` made explicit:
no value, a read that throws, a payload `JSON.parse` rejects, a payload
that parses but is not an array, or a well-formed entry list. -/
inductive StoredHistory where
  | absent
  | read_failure
  | malformed
  | non_array
  | stored (entries : List HistoryEntry)
  deriving DecidableEq, Repr

/-- The history half of AsyncStorage: its current contents plus whether a
`setItem` would succeed (`write_ok = false` models a throwing write). -/
structure HistoryStore where
  contents : StoredHistory
  write_ok : Bool
  deriving DecidableEq, Repr

/-- history.js lines 157-182, `load_history`: `getItem` returning null, a
throwing read, an unparsable payload and a non-array payload all fall open
to the empty list; only a stored array is returned as-is. -/
def load_history : StoredHistory → List HistoryEntry
  | .absent => []
  | .read_failure => []
  | .malformed => []
  | .non_array => []
  | .stored entries => entries

/-- history.js lines 189-210, `save_history_to_storage`: serialises the
full list and replaces the stored value in one `setItem`; returns false
(and leaves the store unchanged) when the write throws. -/
def save_history_to_storage (store : HistoryStore) (history : List HistoryEntry) :
    HistoryStore × Bool :=
  if store.write_ok then ({ store with contents := .stored history }, true)
  else (store, false)

/-- history.js lines 21-23, `generate_history_id`:
`history_${Date.now()}_${random suffix}`. -/
def generate_history_id (now_ms : Int) (rand_suffix : String) : String :=
  "history_" ++ toString now_ms ++ "_" ++ rand_suffix

/-- JS `category || 'Uncategorized'` (history.js line 120): an absent or
empty (falsy) category defaults to "Uncategorized". -/
def category_or_default : Option String → String
  | none => "Uncategorized"
  | some c => if c == "" then "Uncategorized" else c

/-- The history entry built by history.js lines 112-123 at instant
`now_ms` with random id suffix `rand_suffix`. -/
def build_history_entry (now_ms : Int) (rand_suffix timer_name : String)
    (original_duration : Nat) (category : Option String) : HistoryEntry :=
  { id := generate_history_id now_ms rand_suffix
    timer_name := timer_name
    original_duration := original_duration
    category := category_or_default category
    completion_time := to_iso_string now_ms
    completion_date := format_date_for_grouping now_ms }

/-- history.js lines 108-151, `add_timer_to_history`: build the entry, load
the existing list, prepend, and write the whole updated list back in one
replace; returns the success flag of the write. -/
def add_timer_to_history (now_ms : Int) (rand_suffix timer_name : String)
    (original_duration : Nat) (category : Option String) (store : HistoryStore) :
    HistoryStore × Bool :=
  let entry := build_history_entry now_ms rand_suffix timer_name original_duration category
  let existing := load_history store.contents
  save_history_to_storage store (entry :: existing)

/-- Timer.js lines 97-124, `handle_timer_complete`: stops the run, shows
the completion modal (the hook invocation counted by `completions_fired`),
then awaits the journal write; a failed or throwing write is caught and
surfaced only as the boolean status, never altering the engine state and
never retried. -/
def handle_timer_complete (timer_name : String) (duration : Nat) (category : Option String)
    (now_ms : Int) (rand_suffix : String) (s : TimerState) (store : HistoryStore) :
    TimerState × HistoryStore × Bool :=
  let s' := { s with is_running := false
                     show_completion_modal := true
                     completions_fired := s.completions_fired + 1 }
  let write := add_timer_to_history now_ms rand_suffix timer_name duration category store
  (s', write.1, write.2)

/-- history.js lines 269-277, `get_today_completion_count`: count of
entries whose `completion_date` equals today's grouping key. -/
def get_today_completion_count (now_ms : Int) (history : List HistoryEntry) : Nat :=
  (history.filter (fun e => e.completion_date == format_date_for_grouping now_ms)).length

/-- history.js lines 284-294, `get_today_total_time`: sum of
`original_duration` over entries completed on today's grouping key. -/
def get_today_total_time (now_ms : Int) (history : List HistoryEntry) : Nat :=
  (history.filter (fun e => e.completion_date == format_date_for_grouping now_ms)).foldl
    (fun total e => total + e.original_duration) 0

/-- What the persistent store holds under the timers key (storage.js
`load_timers`): no value, a throwing read, an unparsable payload, or a
parsed timers list.  `load_timers` performs no array check, so a parsed
value is returned as-is. -/
inductive StoredTimers where
  | absent
  | read_failure
  | malformed
  | stored (timers : List TimerEntity)
  deriving DecidableEq, Repr

/-- storage.js lines 74-95, `get_default_timers` (no categories). -/
def get_default_timers : List TimerEntity :=
  [⟨"default-1", "1 Minute Timer", 60, none, true⟩,
   ⟨"default-2", "2 Minute Timer", 120, none, true⟩,
   ⟨"default-3", "5 Minute Timer", 300, none, true⟩]

/-- storage.js lines 32-53, `load_timers`: a missing value, a throwing
read and an unparsable payload all fall back to the default timers; a
parsed list is returned as-is. -/
def load_timers : StoredTimers → List TimerEntity
  | .absent => get_default_timers
  | .read_failure => get_default_timers
  | .malformed => get_default_timers
  | .stored timers => timers

lemma digitChar_ne_T (k : Nat) (hk : k < 10) : (Nat.digitChar k != 'T') = true := by
  interval_cases k <;> decide

lemma takeWhile_before_T (l₁ l₂ : List Char) (h : ∀ c ∈ l₁, (c != 'T') = true) :
    (l₁ ++ 'T' :: l₂).takeWhile (fun c => c != 'T') = l₁ := by
  induction l₁ with
  | nil => simp [List.takeWhile_cons]
  | cons c cs ih =>
    have hc : (c != 'T') = true := h c (List.mem_cons_self _ _)
    simp [List.takeWhile_cons, hc, ih (fun x hx => h x (List.mem_cons_of_mem _ hx))]

lemma iso_date_part_no_T (ms : Int) : ∀ c ∈ (iso_date_part ms).data, (c != 'T') = true := by
  unfold iso_date_part
  rcases civil_from_days (Int.fdiv ms 86400000) with ⟨y, m, d⟩
  intro c hc
  have hdata : (four_digits y.toNat ++ "-" ++ two_digits m.toNat ++ "-" ++ two_digits d.toNat).data =
      [Nat.digitChar (y.toNat / 1000 % 10), Nat.digitChar (y.toNat / 100 % 10),
       Nat.digitChar (y.toNat / 10 % 10), Nat.digitChar (y.toNat % 10), '-',
       Nat.digitChar (m.toNat / 10 % 10), Nat.digitChar (m.toNat % 10), '-',
       Nat.digitChar (d.toNat / 10 % 10), Nat.digitChar (d.toNat % 10)] := rfl
  rw [hdata] at hc
  simp only [List.mem_cons, List.not_mem_nil, or_false] at hc
  rcases hc with h | h | h | h | h | h | h | h | h | h
  all_goals subst h
  all_goals first
    | exact digitChar_ne_T _ (Nat.mod_lt _ (by norm_num))
    | decide

/-- The grouping key computed by the source (`toISOString().split('T')[0]`)
is exactly the `YYYY-MM-DD` rendering of the instant's UTC calendar date. -/
lemma format_date_for_grouping_eq_iso_date_part (ms : Int) :
    format_date_for_grouping ms = iso_date_part ms := by
  unfold format_date_for_grouping split_at_T_head to_iso_string
  have hdata : (iso_date_part ms ++ "T" ++ iso_time_part ms).data =
      (iso_date_part ms).data ++ 'T' :: (iso_time_part ms).data := by
    rw [String.data_append, String.data_append]
    show ((iso_date_part ms).data ++ ['T']) ++ (iso_time_part ms).data = _
    simp
  rw [hdata, takeWhile_before_T _ _ (iso_date_part_no_T ms)]
  rfl

/-- C10: the grouping key of an instant is its UTC calendar date (the text
before the `'T'` of its ISO-8601 rendering), not the local calendar date:
a new entry's `completion_date`, the "Today"/"Yesterday" titles and the
today statistics all select by the current UTC date, and there are
instants (near midnight) where the local calendar date differs. -/
theorem grouping_key_is_utc_calendar_date :
    (∀ ms : Int, format_date_for_grouping ms = iso_date_part ms) ∧
    (∀ (now_ms : Int) (rand_suffix timer_name : String) (original_duration : Nat)
        (category : Option String),
      (build_history_entry now_ms rand_suffix timer_name original_duration
        category).completion_date = iso_date_part now_ms) ∧
    (∀ (now_ms : Int) (history : List HistoryEntry),
      get_today_completion_count now_ms history =
        (history.filter (fun e => e.completion_date == iso_date_part now_ms)).length) ∧
    (∀ (now_ms : Int) (history : List HistoryEntry),
      get_today_total_time now_ms history =
        ((history.filter (fun e => e.completion_date == iso_date_part now_ms)).foldl
          (fun total e => total + e.original_duration) 0)) ∧
    (∀ now_ms : Int, format_date_for_display now_ms (iso_date_part now_ms) = "Today") ∧
    (∀ (now_ms : Int) (ds : String), ds ≠ format_date_for_grouping now_ms →
      ds = format_date_for_grouping (now_ms - 86400000) →
      format_date_for_display now_ms ds = "Yesterday") ∧
    (∃ ms tz_offset_min : Int,
      local_date_string ms tz_offset_min ≠ format_date_for_grouping ms) := by
  refine ⟨format_date_for_grouping_eq_iso_date_part, ?_, ?_, ?_, ?_, ?_, ?_⟩
  · intro now_ms rand_suffix timer_name original_duration category
    simp [build_history_entry, format_date_for_grouping_eq_iso_date_part]
  · intro now_ms history
    simp [get_today_completion_count, format_date_for_grouping_eq_iso_date_part]
  · intro now_ms history
    simp [get_today_total_time, format_date_for_grouping_eq_iso_date_part]
  · intro now_ms
    simp [format_date_for_display, format_date_for_grouping_eq_iso_date_part]
  · intro now_ms ds hne hy
    subst hy
    have hne' : (format_date_for_grouping (now_ms - 86400000) ==
        format_date_for_grouping now_ms) = false := by
      simpa using hne
    simp [format_date_for_display, hne']
  · refine ⟨0, 60, ?_⟩
    rw [format_date_for_grouping_eq_iso_date_part]
    decide

/-- Witness for C10's hypothesis-bearing conjunct at a concrete instant:
at 2023-11-14T22:13:20Z the key "2023-11-13" renders as "Yesterday", and
at the epoch a UTC-1 user's local date differs from the grouping key. -/
theorem grouping_key_is_utc_calendar_date_witness :
    format_date_for_grouping 1700000000000 = iso_date_part 1700000000000 ∧
    format_date_for_display 1700000000000 "2023-11-13" = "Yesterday" ∧
    local_date_string 0 60 ≠ format_date_for_grouping 0 :=
  ⟨grouping_key_is_utc_calendar_date.1 1700000000000,
   grouping_key_is_utc_calendar_date.2.2.2.2.2.1 1700000000000 "2023-11-13"
     (by decide) (by decide),
   by
     rw [grouping_key_is_utc_calendar_date.1 0]
     decide⟩

/-- C4: after a successful `add_timer_to_history`, `load_history` returns
the just-built entry first and every previously loadable entry after it in
order; the entry's name and duration equal the arguments, its category is
the argument (or "Uncategorized" when none was supplied), and its id,
completion time and completion date carry the generated id, the ISO
rendering of the instant and the instant's UTC calendar date. -/
theorem add_then_load_round_trip (now_ms : Int) (rand_suffix timer_name : String)
    (original_duration : Nat) (category : Option String) (store : HistoryStore)
    (hok : (add_timer_to_history now_ms rand_suffix timer_name original_duration
      category store).2 = true)
    (hcat : category ≠ some "") :
    load_history (add_timer_to_history now_ms rand_suffix timer_name original_duration
        category store).1.contents =
      build_history_entry now_ms rand_suffix timer_name original_duration category ::
        load_history store.contents ∧
    (build_history_entry now_ms rand_suffix timer_name original_duration
      category).timer_name = timer_name ∧
    (build_history_entry now_ms rand_suffix timer_name original_duration
      category).original_duration = original_duration ∧
    (build_history_entry now_ms rand_suffix timer_name original_duration
      category).category = (match category with
        | none => "Uncategorized"
        | some c => c) ∧
    (build_history_entry now_ms rand_suffix timer_name original_duration
      category).id = generate_history_id now_ms rand_suffix ∧
    (build_history_entry now_ms rand_suffix timer_name original_duration
      category).completion_time = to_iso_string now_ms ∧
    (build_history_entry now_ms rand_suffix timer_name original_duration
      category).completion_date = iso_date_part now_ms := by
  have hw : store.write_ok = true := by
    by_cases h : store.write_ok = true
    · exact h
    · exfalso
      have hfalse : store.write_ok = false := by
        cases hwv : store.write_ok
        · rfl
        · exact absurd hwv h
      rw [add_timer_to_history, save_history_to_storage] at hok
      simp [hfalse] at hok
  refine ⟨?_, rfl, rfl, ?_, rfl, rfl, format_date_for_grouping_eq_iso_date_part now_ms⟩
  · rw [add_timer_to_history, save_history_to_storage]
    simp [hw, load_history]
  · cases category with
    | none => rfl
    | some c =>
      have hc : (c == "") = false := by
        have : c ≠ "" := fun h => hcat (by rw [h])
        simpa using this
      simp [build_history_entry, category_or_default, hc]

/-- Witness for C4: a concrete add of "Focus" (300 s, category "Work") to
a store holding one prior entry, with a write that succeeds. -/
theorem add_then_load_round_trip_witness :
    (add_timer_to_history 1700000000000 "abc123xyz" "Focus" 300 (some "Work")
      ⟨.stored [⟨"history_0_old", "Old", 60, "Break", "1970-01-01T00:00:00.000Z", "1970-01-01"⟩],
        true⟩).2 = true ∧
    (some "Work" : Option String) ≠ some "" ∧
    load_history (add_timer_to_history 1700000000000 "abc123xyz" "Focus" 300 (some "Work")
        ⟨.stored [⟨"history_0_old", "Old", 60, "Break", "1970-01-01T00:00:00.000Z", "1970-01-01"⟩],
          true⟩).1.contents =
      build_history_entry 1700000000000 "abc123xyz" "Focus" 300 (some "Work") ::
        load_history (StoredHistory.stored
          [⟨"history_0_old", "Old", 60, "Break", "1970-01-01T00:00:00.000Z", "1970-01-01"⟩]) ∧
    (build_history_entry 1700000000000 "abc123xyz" "Focus" 300 (some "Work")).category = "Work" ∧
    (build_history_entry 1700000000000 "abc123xyz" "Focus" 300
      (some "Work")).completion_date = iso_date_part 1700000000000 :=
  ⟨rfl, by decide,
   (add_then_load_round_trip 1700000000000 "abc123xyz" "Focus" 300 (some "Work")
     ⟨.stored [⟨"history_0_old", "Old", 60, "Break", "1970-01-01T00:00:00.000Z", "1970-01-01"⟩],
       true⟩ rfl (by decide)).1,
   (add_then_load_round_trip 1700000000000 "abc123xyz" "Focus" 300 (some "Work")
     ⟨.stored [⟨"history_0_old", "Old", 60, "Break", "1970-01-01T00:00:00.000Z", "1970-01-01"⟩],
       true⟩ rfl (by decide)).2.2.2.1,
   (add_then_load_round_trip 1700000000000 "abc123xyz" "Focus" 300 (some "Work")
     ⟨.stored [⟨"history_0_old", "Old", 60, "Break", "1970-01-01T00:00:00.000Z", "1970-01-01"⟩],
       true⟩ rfl (by decide)).2.2.2.2.2.2⟩

/-- C6: neither loader propagates a failure: `load_history` returns the
empty list when the history key is absent, the read throws, the payload
fails to parse, or the parsed payload is not an array; `load_timers`
returns the default timer set when the timers key is absent, the read
throws, or the payload fails to parse. -/
theorem loaders_fail_open_never_propagate :
    load_history .absent = [] ∧
    load_history .read_failure = [] ∧
    load_history .malformed = [] ∧
    load_history .non_array = [] ∧
    (∀ entries, load_history (.stored entries) = entries) ∧
    load_timers .absent = get_default_timers ∧
    load_timers .read_failure = get_default_timers ∧
    load_timers .malformed = get_default_timers ∧
    (∀ timers, load_timers (.stored timers) = timers) :=
  ⟨rfl, rfl, rfl, rfl, fun _ => rfl, rfl, rfl, rfl, fun _ => rfl⟩

/-- C8: when the completion hook's journal write fails, the engine state
reached by `handle_timer_complete` is unaffected: `remaining_time` stays
0 and `is_running` stays false, the store is left exactly as it was (the
write is not retried), the failure is surfaced only as the boolean status,
and the resulting engine state never depends on the store at all. -/
theorem completion_write_failure_leaves_engine_completed
    (timer_name : String) (duration : Nat) (category : Option String)
    (now_ms : Int) (rand_suffix : String) (s : TimerState) (store : HistoryStore)
    (hfail : store.write_ok = false) (hdone : s.remaining_time = 0) :
    (handle_timer_complete timer_name duration category now_ms rand_suffix s
      store).1.remaining_time = 0 ∧
    (handle_timer_complete timer_name duration category now_ms rand_suffix s
      store).1.is_running = false ∧
    (handle_timer_complete timer_name duration category now_ms rand_suffix s
      store).2.2 = false ∧
    (handle_timer_complete timer_name duration category now_ms rand_suffix s
      store).2.1 = store ∧
    (∀ store2 : HistoryStore,
      (handle_timer_complete timer_name duration category now_ms rand_suffix s store2).1 =
        (handle_timer_complete timer_name duration category now_ms rand_suffix s store).1) := by
  refine ⟨hdone, rfl, ?_, ?_, fun store2 => rfl⟩
  · rw [handle_timer_complete, add_timer_to_history, save_history_to_storage]
    simp [hfail]
  · rw [handle_timer_complete, add_timer_to_history, save_history_to_storage]
    simp [hfail]

/-- Witness for C8: a concrete completed engine and a store whose write
throws. -/
theorem completion_write_failure_leaves_engine_completed_witness :
    (⟨.stored [], false⟩ : HistoryStore).write_ok = false ∧
    (⟨60, 0, false, false, 0⟩ : TimerState).remaining_time = 0 ∧
    ((handle_timer_complete "Focus" 60 (some "Work") 1700000000000 "abc123xyz"
        ⟨60, 0, false, false, 0⟩ ⟨.stored [], false⟩).1.remaining_time = 0 ∧
     (handle_timer_complete "Focus" 60 (some "Work") 1700000000000 "abc123xyz"
        ⟨60, 0, false, false, 0⟩ ⟨.stored [], false⟩).1.is_running = false ∧
     (handle_timer_complete "Focus" 60 (some "Work") 1700000000000 "abc123xyz"
        ⟨60, 0, false, false, 0⟩ ⟨.stored [], false⟩).2.2 = false ∧
     (handle_timer_complete "Focus" 60 (some "Work") 1700000000000 "abc123xyz"
        ⟨60, 0, false, false, 0⟩ ⟨.stored [], false⟩).2.1 = ⟨.stored [], false⟩ ∧
     (∀ store2 : HistoryStore,
       (handle_timer_complete "Focus" 60 (some "Work") 1700000000000 "abc123xyz"
          ⟨60, 0, false, false, 0⟩ store2).1 =
         (handle_timer_complete "Focus" 60 (some "Work") 1700000000000 "abc123xyz"
            ⟨60, 0, false, false, 0⟩ ⟨.stored [], false⟩).1)) :=
  ⟨rfl, rfl,
   completion_write_failure_leaves_engine_completed "Focus" 60 (some "Work") 1700000000000
     "abc123xyz" ⟨60, 0, false, false, 0⟩ ⟨.stored [], false⟩ rfl rfl⟩

/-- Epoch milliseconds of a `YYYY-MM-DDTHH:MM:SS.mmmZ` string: the value of
JS `new Date(iso_string)` used as the sort key in `group_history_by_date`. -/
def parse_iso_ms (s : String) : Int :=
  let l := s.data
  let dig := fun (i : Nat) => ((char_digit (l.getD i '0')) : Int)
  let y := 1000 * dig 0 + 100 * dig 1 + 10 * dig 2 + dig 3
  let mo := 10 * dig 5 + dig 6
  let da := 10 * dig 8 + dig 9
  let h := 10 * dig 11 + dig 12
  let mi := 10 * dig 14 + dig 15
  let se := 10 * dig 17 + dig 18
  let msp := 100 * dig 20 + 10 * dig 21 + dig 22
  days_from_civil y mo da * 86400000 + 3600000 * h + 60000 * mi + 1000 * se + msp

/-- One rendered section of the history SectionList (history.js lines
249-255). -/
structure HistorySection where
  title : String
  date : String
  data : List HistoryEntry
  deriving DecidableEq, Repr

/-- One step of the `reduce` in history.js lines 239-246: push the entry
onto its date's group, or append a fresh group for a new date (JS object
insertion order for non-index string keys is first-appearance order). -/
def group_insert (groups : List (String × List HistoryEntry)) (e : HistoryEntry) :
    List (String × List HistoryEntry) :=
  match groups with
  | [] => [(e.completion_date, [e])]
  | (k, es) :: rest =>
    if k == e.completion_date then (k, es ++ [e]) :: rest
    else (k, es) :: group_insert rest e

/-- The grouped object of history.js lines 239-246, as `Object.entries`
returns it. -/
def group_pairs (history : List HistoryEntry) : List (String × List HistoryEntry) :=
  history.foldl group_insert []

/-- The date comparator of history.js line 250,
`([date_a], [date_b]) => date_b.localeCompare(date_a)`: sort keys
descending (ASCII keys, so localeCompare agrees with lexicographic
order). -/
def date_desc (p q : String × List HistoryEntry) : Bool :=
  decide (q.1 ≤ p.1)

/-- The entry comparator of history.js line 254,
`(a, b) => new Date(b.completion_time) - new Date(a.completion_time)`:
sort by parsed completion instant descending. -/
def time_desc (a b : HistoryEntry) : Bool :=
  decide (parse_iso_ms b.completion_time ≤ parse_iso_ms a.completion_time)

/-- history.js lines 232-262, `group_history_by_date`: group by
`completion_date`, sort the groups by date descending, render each as a
section with its entries sorted by completion instant descending (JS sort
modelled by stable merge sort, as V8's sort is stable). -/
def group_history_by_date (now_ms : Int) (history : List HistoryEntry) :
    List HistorySection :=
  let sorted_pairs := (group_pairs history).mergeSort date_desc
  sorted_pairs.map (fun p =>
    { title := format_date_for_display now_ms p.1
      date := p.1
      data := p.2.mergeSort time_desc })

lemma join_group_insert (g : List (String × List HistoryEntry)) (e : HistoryEntry) :
    ((group_insert g e).flatMap (fun p => p.2)).Perm
      (g.flatMap (fun p => p.2) ++ [e]) := by
  induction g with
  | nil => simp [group_insert]
  | cons p rest ih =>
    rcases p with ⟨k, es⟩
    by_cases h : k = e.completion_date
    · subst h
      simp only [group_insert, beq_self_eq_true, if_pos, List.flatMap_cons]
      rw [List.append_assoc, List.append_assoc]
      exact List.Perm.append_left es (List.perm_append_comm)
    · have hb : (k == e.completion_date) = false := by simpa using h
      simp only [group_insert, hb, Bool.false_eq_true, if_neg, List.flatMap_cons]
      rw [List.append_assoc]
      exact List.Perm.append_left es ih

lemma join_foldl_group_insert (history : List HistoryEntry) :
    ∀ g : List (String × List HistoryEntry),
      ((history.foldl group_insert g).flatMap (fun p => p.2)).Perm
        (g.flatMap (fun p => p.2) ++ history) := by
  induction history with
  | nil => intro g; simp
  | cons e rest ih =>
    intro g
    have h1 := ih (group_insert g e)
    have h2 : ((group_insert g e).flatMap (fun p => p.2) ++ rest).Perm
        ((g.flatMap (fun p => p.2) ++ [e]) ++ rest) :=
      (join_group_insert g e).append_right rest
    have h3 : ((g.flatMap (fun p => p.2) ++ [e]) ++ rest) =
        g.flatMap (fun p => p.2) ++ (e :: rest) := by
      rw [List.append_assoc]
      rfl
    rw [List.foldl_cons]
    exact (h1.trans h2).trans (by rw [h3])

/-- The multiset of grouped entries is exactly the input list. -/
lemma join_group_pairs (history : List HistoryEntry) :
    ((group_pairs history).flatMap (fun p => p.2)).Perm history := by
  simpa [group_pairs] using join_foldl_group_insert history []

/-- Well-formedness of the grouped object: keys are pairwise distinct and
every entry sits in the group of its own `completion_date`. -/
def GroupsWF (g : List (String × List HistoryEntry)) : Prop :=
  (g.map (fun p => p.1)).Nodup ∧ ∀ p ∈ g, ∀ e ∈ p.2, e.completion_date = p.1

lemma keys_group_insert (g : List (String × List HistoryEntry)) (e : HistoryEntry) :
    (group_insert g e).map (fun p => p.1) =
      if e.completion_date ∈ g.map (fun p => p.1) then g.map (fun p => p.1)
      else g.map (fun p => p.1) ++ [e.completion_date] := by
  induction g with
  | nil => simp [group_insert]
  | cons p rest ih =>
    rcases p with ⟨k, es⟩
    by_cases h : k = e.completion_date
    · subst h
      simp [group_insert]
    · have hb : (k == e.completion_date) = false := by simpa using h
      simp only [group_insert, hb, Bool.false_eq_true, if_neg, List.map_cons]
      have hne : ¬ e.completion_date = k := fun hc => h hc.symm
      by_cases hm : e.completion_date ∈ rest.map (fun p => p.1)
      · simp [hm, hne, ih]
      · simp [hm, hne, ih]

lemma group_insert_dates (g : List (String × List HistoryEntry)) (e : HistoryEntry)
    (hdates : ∀ p ∈ g, ∀ x ∈ p.2, x.completion_date = p.1) :
    ∀ p ∈ group_insert g e, ∀ x ∈ p.2, x.completion_date = p.1 := by
  induction g with
  | nil =>
    intro p hp x hx
    simp only [group_insert, List.mem_singleton] at hp
    subst hp
    simp only [List.mem_singleton] at hx
    subst hx
    rfl
  | cons q rest ih =>
    rcases q with ⟨k, es⟩
    intro p hp x hx
    by_cases h : k = e.completion_date
    · have hb : (k == e.completion_date) = true := by simpa using h
      have hstep : group_insert ((k, es) :: rest) e = (k, es ++ [e]) :: rest := by
        simp [group_insert, hb]
      rw [hstep] at hp
      rcases List.mem_cons.mp hp with hp2 | hp2
      · subst hp2
        simp only [List.mem_append, List.mem_singleton] at hx
        rcases hx with hx | hx
        · exact hdates (k, es) (List.mem_cons_self _ _) x hx
        · subst hx
          exact h.symm
      · exact hdates p (List.mem_cons_of_mem _ hp2) x hx
    · have hb : (k == e.completion_date) = false := by simpa using h
      have hstep : group_insert ((k, es) :: rest) e = (k, es) :: group_insert rest e := by
        simp [group_insert, hb]
      rw [hstep] at hp
      rcases List.mem_cons.mp hp with hp2 | hp2
      · subst hp2
        exact hdates (k, es) (List.mem_cons_self _ _) x hx
      · exact ih (fun p2 hp2 => hdates p2 (List.mem_cons_of_mem _ hp2)) p hp2 x hx

lemma group_insert_wf (g : List (String × List HistoryEntry)) (e : HistoryEntry)
    (hwf : GroupsWF g) : GroupsWF (group_insert g e) := by
  rcases hwf with ⟨hnd, hdates⟩
  refine ⟨?_, group_insert_dates g e hdates⟩
  rw [keys_group_insert]
  by_cases hm : e.completion_date ∈ g.map (fun p => p.1)
  · simpa [hm] using hnd
  · simp only [hm, Bool.false_eq_true, if_neg]
    simp [List.nodup_append, hnd, hm]

lemma foldl_group_insert_wf (history : List HistoryEntry) :
    ∀ g : List (String × List HistoryEntry), GroupsWF g →
      GroupsWF (history.foldl group_insert g) := by
  induction history with
  | nil => intro g hg; exact hg
  | cons e rest ih =>
    intro g hg
    rw [List.foldl_cons]
    exact ih (group_insert g e) (group_insert_wf g e hg)

lemma group_pairs_wf (history : List HistoryEntry) : GroupsWF (group_pairs history) :=
  foldl_group_insert_wf history [] ⟨List.nodup_nil, by simp⟩

lemma date_desc_trans : ∀ a b c, date_desc a b = true → date_desc b c = true →
    date_desc a c = true := by
  intro a b c hab hbc
  simp only [date_desc, decide_eq_true_eq] at hab hbc ⊢
  exact le_trans hbc hab

lemma date_desc_total : ∀ a b, (date_desc a b || date_desc b a) = true := by
  intro a b
  simp only [date_desc, Bool.or_eq_true, decide_eq_true_eq]
  exact le_total b.1 a.1

lemma time_desc_trans : ∀ a b c, time_desc a b = true → time_desc b c = true →
    time_desc a c = true := by
  intro a b c hab hbc
  simp only [time_desc, decide_eq_true_eq] at hab hbc ⊢
  exact le_trans hbc hab

lemma time_desc_total : ∀ a b, (time_desc a b || time_desc b a) = true := by
  intro a b
  simp only [time_desc, Bool.or_eq_true, decide_eq_true_eq]
  exact le_total (parse_iso_ms b.completion_time) (parse_iso_ms a.completion_time)

lemma flatMap_of_map {α β γ : Type} (l : List α) (f : α → β) (g : β → List γ) :
    (l.map f).flatMap g = l.flatMap (fun x => g (f x)) := by
  induction l with
  | nil => rfl
  | cons a t ih => simp [ih]

lemma flatMap_perm_congr {α β : Type} (l : List α) (f g : α → List β)
    (h : ∀ x ∈ l, (f x).Perm (g x)) : (l.flatMap f).Perm (l.flatMap g) := by
  induction l with
  | nil => simp
  | cons a t ih =>
    simp only [List.flatMap_cons]
    exact (h a (List.mem_cons_self _ _)).append
      (ih fun x hx => h x (List.mem_cons_of_mem _ hx))

/-- C5: `group_history_by_date` partitions the input — the concatenation of
the sections' entries is a permutation of the input list, and every entry
sits in the section of its own `completion_date`, with section dates
pairwise distinct (strictly descending) — the sections are ordered by date
descending, and within each section the entries are ordered by parsed
`completion_time` descending. -/
theorem group_by_date_partitions_and_orders (now_ms : Int) (history : List HistoryEntry) :
    ((group_history_by_date now_ms history).flatMap (fun sec => sec.data)).Perm history ∧
    (∀ sec ∈ group_history_by_date now_ms history, ∀ e ∈ sec.data,
      e.completion_date = sec.date) ∧
    ((group_history_by_date now_ms history).map (fun sec => sec.date)).Pairwise
      (fun a b => b < a) ∧
    (∀ sec ∈ group_history_by_date now_ms history,
      sec.data.Pairwise (fun a b =>
        parse_iso_ms b.completion_time ≤ parse_iso_ms a.completion_time)) := by
  have hdef : group_history_by_date now_ms history =
      ((group_pairs history).mergeSort date_desc).map (fun p =>
        { title := format_date_for_display now_ms p.1
          date := p.1
          data := p.2.mergeSort time_desc }) := rfl
  have hperm_pairs : ((group_pairs history).mergeSort date_desc).Perm (group_pairs history) :=
    List.mergeSort_perm (group_pairs history) date_desc
  have hwf := group_pairs_wf history
  refine ⟨?_, ?_, ?_, ?_⟩
  · rw [hdef, flatMap_of_map]
    have h2 : (((group_pairs history).mergeSort date_desc).flatMap
        (fun p => p.2.mergeSort time_desc)).Perm
          (((group_pairs history).mergeSort date_desc).flatMap (fun p => p.2)) :=
      flatMap_perm_congr _ _ _ (fun p _ => List.mergeSort_perm p.2 time_desc)
    exact h2.trans ((hperm_pairs.flatMap_right (fun p => p.2)).trans (join_group_pairs history))
  · intro sec hsec e he
    rw [hdef] at hsec
    rcases List.mem_map.mp hsec with ⟨p, hpmem, rfl⟩
    have hp_orig : p ∈ group_pairs history := hperm_pairs.mem_iff.mp hpmem
    have he' : e ∈ p.2 := (List.mergeSort_perm p.2 time_desc).mem_iff.mp he
    exact hwf.2 p hp_orig e he'
  · have hsorted_le : ((group_pairs history).mergeSort date_desc).Pairwise
        (fun a b => date_desc a b = true) :=
      List.sorted_mergeSort date_desc_trans date_desc_total (group_pairs history)
    have hnodup : (((group_pairs history).mergeSort date_desc).map (fun p => p.1)).Nodup :=
      ((hperm_pairs.map (fun p => p.1)).symm).nodup hwf.1
    have hne : ((group_pairs history).mergeSort date_desc).Pairwise
        (fun a b => a.1 ≠ b.1) := List.pairwise_map.mp hnodup
    have hstrict : ((group_pairs history).mergeSort date_desc).Pairwise
        (fun a b => b.1 < a.1) := by
      refine (hsorted_le.and hne).imp ?_
      rintro a b ⟨hle, hab⟩
      have hle' : b.1 ≤ a.1 := by simpa [date_desc] using hle
      exact lt_of_le_of_ne hle' (Ne.symm hab)
    rw [hdef, List.map_map]
    exact List.pairwise_map.mpr hstrict
  · intro sec hsec
    rw [hdef] at hsec
    rcases List.mem_map.mp hsec with ⟨p, hpmem, rfl⟩
    have hsorted : (p.2.mergeSort time_desc).Pairwise (fun a b => time_desc a b = true) :=
      List.sorted_mergeSort time_desc_trans time_desc_total p.2
    exact hsorted.imp (fun h => by simpa [time_desc] using h)

lemma group_single_entry_eval :
    group_history_by_date 1700000000000
        [⟨"h1", "Focus", 300, "Work", "2023-11-14T10:00:00.000Z", "2023-11-14"⟩] =
      [⟨"Today", "2023-11-14",
        [⟨"h1", "Focus", 300, "Work", "2023-11-14T10:00:00.000Z", "2023-11-14"⟩]⟩] := by
  have hdef : group_history_by_date 1700000000000
      [⟨"h1", "Focus", 300, "Work", "2023-11-14T10:00:00.000Z", "2023-11-14"⟩] =
      ((group_pairs [⟨"h1", "Focus", 300, "Work", "2023-11-14T10:00:00.000Z",
          "2023-11-14"⟩]).mergeSort date_desc).map (fun p =>
        { title := format_date_for_display 1700000000000 p.1
          date := p.1
          data := p.2.mergeSort time_desc }) := rfl
  have hpairs : group_pairs
      [⟨"h1", "Focus", 300, "Work", "2023-11-14T10:00:00.000Z", "2023-11-14"⟩] =
      [("2023-11-14",
        [⟨"h1", "Focus", 300, "Work", "2023-11-14T10:00:00.000Z", "2023-11-14"⟩])] := rfl
  have htitle : format_date_for_display 1700000000000 "2023-11-14" = "Today" := by decide
  rw [hdef, hpairs, List.mergeSort_singleton, List.map_cons, List.map_nil,
    List.mergeSort_singleton, htitle]

/-- Witness for C5 at a concrete one-entry history: the single produced
section carries the entry's date and contains the entry. -/
theorem group_by_date_partitions_and_orders_witness :
    ((group_history_by_date 1700000000000
        [⟨"h1", "Focus", 300, "Work", "2023-11-14T10:00:00.000Z", "2023-11-14"⟩]).flatMap
      (fun sec => sec.data)).Perm
        [⟨"h1", "Focus", 300, "Work", "2023-11-14T10:00:00.000Z", "2023-11-14"⟩] ∧
    (⟨"h1", "Focus", 300, "Work", "2023-11-14T10:00:00.000Z",
      "2023-11-14"⟩ : HistoryEntry).completion_date = "2023-11-14" :=
  ⟨(group_by_date_partitions_and_orders 1700000000000
      [⟨"h1", "Focus", 300, "Work", "2023-11-14T10:00:00.000Z", "2023-11-14"⟩]).1,
   (group_by_date_partitions_and_orders 1700000000000
      [⟨"h1", "Focus", 300, "Work", "2023-11-14T10:00:00.000Z", "2023-11-14"⟩]).2.1
     ⟨"Today", "2023-11-14",
       [⟨"h1", "Focus", 300, "Work", "2023-11-14T10:00:00.000Z", "2023-11-14"⟩]⟩
     (by rw [group_single_entry_eval]; exact List.mem_singleton.mpr rfl)
     ⟨"h1", "Focus", 300, "Work", "2023-11-14T10:00:00.000Z", "2023-11-14"⟩
     (List.mem_singleton.mpr rfl)⟩
